import Mathlib

/-!
# image-resize.c: redraw coalescing, texture creation and filter selection

A shallow embedding of `src/image-resize.c`.  C `int` values are `Int`, with signed
overflow made explicit; `unsigned int` handles are `Nat`.  Calls into GLib, GdkPixbuf
and Cogl are not part of the file: their results are taken as parameters and the calls
the program makes are recorded in logs.
-/

namespace ImageResize

/-! ## Machine integers and booleans -/

def INT_MIN : Int := -2147483648

def INT_MAX : Int := 2147483647

/-- Signed `int` subtraction.  The result is `none` when it is not representable in 32
bits, where C leaves the behaviour undefined. -/
def int_sub (a b : Int) : Option Int :=
  if INT_MIN ≤ a - b ∧ a - b ≤ INT_MAX then some (a - b) else none

/-- The constant `TRUE` of `gboolean` and `CoglBool`, both plain `int`. -/
def TRUE : Int := 1

/-- The constant `FALSE` of `gboolean` and `CoglBool`. -/
def FALSE : Int := 0

/-- The constant `G_SOURCE_REMOVE`, which GLib defines as `FALSE`. -/
def G_SOURCE_REMOVE : Int := FALSE

/-! ## `is_pot` -/

/-- The expression `x > 0 && (x & (x - 1)) == 0`.  The right operand of `&&` is only evaluated when the
left one holds; `none` stands for an overflowing `x - 1`. -/
def is_pot (x : Int) : Option Bool :=
  if x > 0 then
    match int_sub x 1 with
    | some y => some (Int.land x y == 0)
    | none => none
  else some false

/-! ## `meta_create_texture` -/

def META_TEXTURE_FLAGS_NONE : Nat := 0

def META_TEXTURE_ALLOW_SLICING : Nat := 1 <<< 1

/-- The two Cogl features the program asks about. -/
inductive CoglFeatureID where
  | TEXTURE_NPOT
  | TEXTURE_RECTANGLE
  deriving DecidableEq, Repr

/-- The two component layouts the program requests. -/
inductive CoglTextureComponents where
  | RGB
  | RGBA
  deriving DecidableEq, Repr

/-- Which Cogl constructor made a texture. -/
inductive TextureKind where
  | rectangle
  | texture_2d
  | sliced_2d (max_waste : Int)
  deriving DecidableEq, Repr

structure CoglTexture where
  kind : TextureKind
  width : Int
  height : Int
  components : Option CoglTextureComponents
  deriving DecidableEq, Repr

/-- What the program observes of a Cogl context: the feature flags, whether storage for
a given texture can be allocated, and the value of `COGL_TEXTURE_MAX_WASTE`. -/
structure CoglContext where
  has_feature : CoglFeatureID → Bool
  can_allocate : CoglTexture → Bool
  max_waste : Int

/-- How a call ends: with a value, in `g_error` (which aborts the process), or in
undefined behaviour. -/
inductive Outcome (α : Type) where
  | ok (a : α)
  | g_error (msg : String)
  | undefined
  deriving DecidableEq, Repr

def cogl_texture_set_components (t : CoglTexture) (c : CoglTextureComponents) : CoglTexture :=
  { t with components := some c }

/-- The condition `is_pot (width) && is_pot (height)`, evaluated left to right. -/
def both_pot (width height : Int) : Option Bool :=
  match is_pot width with
  | none => none
  | some false => some false
  | some true => is_pot height

/-- The part of `meta_create_texture` after `should_use_rectangle` has been decided. -/
def meta_create_texture_tail (ctx : CoglContext) (should_use_rectangle : Bool)
    (width height : Int) (components : CoglTextureComponents) (flags : Nat) : CoglTexture :=
  let texture : CoglTexture :=
    if should_use_rectangle then
      { kind := TextureKind.rectangle, width := width, height := height, components := none }
    else
      { kind := TextureKind.texture_2d, width := width, height := height, components := none }
  let texture := cogl_texture_set_components texture components
  if (flags &&& META_TEXTURE_ALLOW_SLICING) ≠ 0 then
    if !ctx.can_allocate texture then
      let sliced : CoglTexture :=
        { kind := TextureKind.sliced_2d ctx.max_waste, width := width, height := height,
          components := none }
      cogl_texture_set_components sliced components
    else texture
  else texture

def meta_create_texture (ctx : CoglContext) (width height : Int)
    (components : CoglTextureComponents) (flags : Nat) : Outcome CoglTexture :=
  match both_pot width height with
  | none => Outcome.undefined
  | some pot =>
    if !pot && !ctx.has_feature CoglFeatureID.TEXTURE_NPOT then
      if ctx.has_feature CoglFeatureID.TEXTURE_RECTANGLE then
        Outcome.ok (meta_create_texture_tail ctx true width height components flags)
      else
        Outcome.g_error
          ("Cannot create texture. Support for GL_ARB_texture_non_power_of_two or " ++
            "ARB_texture_rectangle is required")
    else
      Outcome.ok (meta_create_texture_tail ctx false width height components flags)

/-! ## Redraw state and the idle scheduler -/

/-- The fields of `Data` that the callbacks and `main` read or write as integers.  The
Cogl handles (`ctx`, `fb`, `pipeline`, `prim`, `indices`) are fixed once `main` has set
them and are left out, as are the float window sizes. -/
structure Data where
  redraw_idle : Nat
  is_dirty : Int
  draw_ready : Int
  width : Int
  height : Int
  deriving DecidableEq, Repr

/-- The three calls `paint_cb` makes on the framebuffer. -/
inductive RenderOp where
  | clear4f
  | primitive_draw
  | swap_buffers
  deriving DecidableEq, Repr

/-- The program state together with what the GLib main context holds for it:
`sources` are the ids of the idle sources attached by `g_idle_add` and not yet
dispatched, `issued` counts the `g_idle_add` calls made so far, and `log` lists the
framebuffer calls in order. -/
structure World where
  data : Data
  sources : List Nat
  issued : Nat
  log : List RenderOp
  deriving DecidableEq, Repr

/-- The call `g_idle_add (paint_cb, data)`.  `sched n` is the id GLib returns for the
`n`-th source it is asked to attach. -/
def g_idle_add (sched : Nat → Nat) (w : World) : Nat × World :=
  (sched w.issued, { w with sources := w.sources ++ [sched w.issued], issued := w.issued + 1 })

def maybe_redraw (sched : Nat → Nat) (w : World) : World :=
  if w.data.is_dirty ≠ 0 ∧ w.data.draw_ready ≠ 0 ∧ w.data.redraw_idle = 0 then
    let r := g_idle_add sched w
    { r.2 with data := { r.2.data with redraw_idle := r.1 } }
  else w

inductive CoglFrameEvent where
  | SYNC
  | COMPLETE
  deriving DecidableEq, Repr

def frame_event_cb (sched : Nat → Nat) (event : CoglFrameEvent) (w : World) : World :=
  if event = CoglFrameEvent.SYNC then
    maybe_redraw sched { w with data := { w.data with draw_ready := TRUE } }
  else w

def dirty_cb (sched : Nat → Nat) (w : World) : World :=
  maybe_redraw sched { w with data := { w.data with is_dirty := TRUE } }

/-- A notification Cogl delivers to one of the two registered callbacks. -/
inductive Notify where
  | dirty
  | frame (event : CoglFrameEvent)
  deriving DecidableEq, Repr

def deliver (sched : Nat → Nat) (n : Notify) (w : World) : World :=
  match n with
  | Notify.dirty => dirty_cb sched w
  | Notify.frame event => frame_event_cb sched event w

def deliver_all (sched : Nat → Nat) (ns : List Notify) (w : World) : World :=
  ns.foldl (fun acc n => deliver sched n acc) w

/-- One framebuffer call: it is logged, and the notifications in `raised` are delivered
to the callbacks before it returns. -/
def renderer_call (sched : Nat → Nat) (op : RenderOp) (raised : List Notify) (w : World) : World :=
  deliver_all sched raised { w with log := w.log ++ [op] }

/-- The callback `paint_cb`; `raised op` are the notifications delivered while the
framebuffer call `op` runs.  The second component is the returned `gboolean`. -/
def paint_cb (sched : Nat → Nat) (raised : RenderOp → List Notify) (w : World) : World × Int :=
  let w := { w with data := { w.data with redraw_idle := 0 } }
  let w := { w with data := { w.data with is_dirty := FALSE } }
  let w := { w with data := { w.data with draw_ready := FALSE } }
  let w := renderer_call sched RenderOp.clear4f (raised RenderOp.clear4f) w
  let w := renderer_call sched RenderOp.primitive_draw (raised RenderOp.primitive_draw) w
  let w := renderer_call sched RenderOp.swap_buffers (raised RenderOp.swap_buffers) w
  (w, G_SOURCE_REMOVE)

/-- The main loop dispatching the `k`-th attached idle source: the source fires, its
callback runs, and the source is attached again only when the callback asks to be kept.
Nothing happens when there is no such source. -/
def dispatch_idle (sched : Nat → Nat) (raised : RenderOp → List Notify) (k : Nat)
    (w : World) : World :=
  match w.sources.get? k with
  | none => w
  | some id =>
    let r := paint_cb sched raised { w with sources := w.sources.eraseIdx k }
    if r.2 ≠ 0 then { r.1 with sources := r.1.sources ++ [id] } else r.1

/-- What the main loop can do next: deliver a notification, or dispatch an idle source. -/
inductive Event where
  | notify (n : Notify)
  | fire (k : Nat) (raised : RenderOp → List Notify)

def step (sched : Nat → Nat) (e : Event) (w : World) : World :=
  match e with
  | Event.notify n => deliver sched n w
  | Event.fire k raised => dispatch_idle sched raised k w

def run (sched : Nat → Nat) (es : List Event) (w : World) : World :=
  es.foldl (fun acc e => step sched e acc) w

/-- The number of completed `paint_cb` runs, each of which ends in one buffer swap. -/
def paints (w : World) : Nat :=
  w.log.count RenderOp.swap_buffers

/-- No framebuffer call raises a notification. -/
def quiet : RenderOp → List Notify :=
  fun _ => []

/-! ## Filter selection and usage text -/

inductive CoglPipelineFilter where
  | NEAREST
  | LINEAR
  | NEAREST_MIPMAP_NEAREST
  | LINEAR_MIPMAP_NEAREST
  | NEAREST_MIPMAP_LINEAR
  | LINEAR_MIPMAP_LINEAR
  deriving DecidableEq, Repr

/-- The local array `filters[]` of `get_filter_by_idx`. -/
def filters : List CoglPipelineFilter :=
  [ CoglPipelineFilter.NEAREST,
    CoglPipelineFilter.LINEAR,
    CoglPipelineFilter.NEAREST_MIPMAP_NEAREST,
    CoglPipelineFilter.LINEAR_MIPMAP_NEAREST,
    CoglPipelineFilter.NEAREST_MIPMAP_LINEAR,
    CoglPipelineFilter.LINEAR_MIPMAP_LINEAR ]

/-- The array read `filters[idx]`; `none` when the index is outside the array, where C
defines no result. -/
def get_filter_by_idx (idx : Int) : Option CoglPipelineFilter :=
  if idx < 0 then none else filters.get? idx.toNat

/-- The C identifier of each filter constant. -/
def filter_name : CoglPipelineFilter → String
  | CoglPipelineFilter.NEAREST => "COGL_PIPELINE_FILTER_NEAREST"
  | CoglPipelineFilter.LINEAR => "COGL_PIPELINE_FILTER_LINEAR"
  | CoglPipelineFilter.NEAREST_MIPMAP_NEAREST => "COGL_PIPELINE_FILTER_NEAREST_MIPMAP_NEAREST"
  | CoglPipelineFilter.LINEAR_MIPMAP_NEAREST => "COGL_PIPELINE_FILTER_LINEAR_MIPMAP_NEAREST"
  | CoglPipelineFilter.NEAREST_MIPMAP_LINEAR => "COGL_PIPELINE_FILTER_NEAREST_MIPMAP_LINEAR"
  | CoglPipelineFilter.LINEAR_MIPMAP_LINEAR => "COGL_PIPELINE_FILTER_LINEAR_MIPMAP_LINEAR"

/-- The lines `print_usage` writes to standard output, one per `printf`. -/
def print_usage (exec : String) : List String :=
  [ exec ++ " [IMAGE_FILE_PATH] [FILTER_INDEX]\n",
    "FILTER INDEX\n",
    "0: COGL_PIPELINE_FILTER_NEAREST\n",
    "1: COGL_PIPELINE_FILTER_LINEAR\n",
    "2: COGL_PIPELINE_FILTER_NEAREST_MIPMAP_NEAREST\n",
    "3: COGL_PIPELINE_FILTER_LINEAR_MIPMAP_NEAREST\n",
    "4: COGL_PIPELINE_FILTER_NEAREST_MIPMAP_LINEAR\n",
    "5: COGL_PIPELINE_FILTER_LINEAR_MIPMAP_LINEAR\n" ]

/-! ## `load_file` and `main` -/

structure GdkPixbuf where
  width : Int
  height : Int
  has_alpha : Int
  rowstride : Int
  pixels : Nat
  deriving DecidableEq, Repr

/-- The library behaviour `main` depends on.  `null_pixbuf` holds what the GdkPixbuf
getters give back when they are handed a `NULL` pixbuf. -/
structure Libs where
  g_file_read : String → Option Nat
  gdk_pixbuf_new_from_stream : Nat → Option GdkPixbuf
  null_pixbuf : GdkPixbuf
  atoi : String → Int
  cogl_context_new : Except String CoglContext
  cogl_texture_set_data : CoglTexture → Bool

def load_file (libs : Libs) (path : String) : Option GdkPixbuf :=
  match libs.g_file_read path with
  | none => none
  | some stream =>
    match libs.gdk_pixbuf_new_from_stream stream with
    | none => none
    | some pixbuf => some pixbuf

inductive Getter where
  | width
  | height
  | has_alpha
  | rowstride
  | pixels
  deriving DecidableEq, Repr

/-- The library calls and output of `main`, in program order. -/
inductive Call where
  | stdout (text : String)
  | stderr (text : String)
  | printf_picture (width height has_alpha row_stride : Int) (pixels : Nat)
  | load_file (path : String)
  | pixbuf_get (g : Getter) (pixbuf : Option GdkPixbuf)
  | cogl_context_new
  | meta_create_texture (width height : Int) (components : CoglTextureComponents) (flags : Nat)
  | cogl_texture_set_data (texture : CoglTexture) (row_stride : Int) (pixels : Nat)
  | g_error (msg : String)
  | onscreen_new_and_show
  | primitive_new
  | pipeline_new (texture : CoglTexture)
  | set_layer_filters (min_filter mag_filter : CoglPipelineFilter)
  | add_frame_callback
  | add_dirty_callback
  | g_main_loop_run
  deriving DecidableEq, Repr

/-- How `main` ends: by returning a status, in `g_error`, in undefined behaviour, or in
the main loop with the given redraw state. -/
inductive Exit where
  | returned (status : Int)
  | aborted
  | undefined
  | main_loop (w : World)
  deriving DecidableEq, Repr

def pixbuf_or_null (libs : Libs) (pixbuf : Option GdkPixbuf) : GdkPixbuf :=
  match pixbuf with
  | some p => p
  | none => libs.null_pixbuf

/-- The function `main`.  `stack` is the indeterminate content of the automatic variable
`data` before any field is assigned. -/
def main (libs : Libs) (stack : Data) (argv : List String) : List Call × Exit :=
  if (argv.length : Int) < 3 then
    ((print_usage (argv.getD 0 "")).map Call.stdout, Exit.returned 0)
  else
    let data := { stack with redraw_idle := 0 }
    let pixbuf := load_file libs (argv.getD 1 "")
    let seen := pixbuf_or_null libs pixbuf
    let data := { data with width := seen.width }
    let data := { data with height := seen.height }
    let has_alpha := seen.has_alpha
    let row_stride := seen.rowstride
    let pixels := seen.pixels
    let calls :=
      [ Call.load_file (argv.getD 1 ""),
        Call.pixbuf_get Getter.width pixbuf,
        Call.pixbuf_get Getter.height pixbuf,
        Call.pixbuf_get Getter.has_alpha pixbuf,
        Call.pixbuf_get Getter.rowstride pixbuf,
        Call.pixbuf_get Getter.pixels pixbuf,
        Call.printf_picture data.width data.height has_alpha row_stride pixels,
        Call.cogl_context_new ]
    match libs.cogl_context_new with
    | Except.error message =>
      (calls ++ [Call.stderr ("Failed to create context: " ++ message ++ "\n")], Exit.returned 1)
    | Except.ok ctx =>
      let components :=
        if has_alpha ≠ 0 then CoglTextureComponents.RGBA else CoglTextureComponents.RGB
      let calls := calls ++
        [Call.meta_create_texture data.width data.height components META_TEXTURE_ALLOW_SLICING]
      match meta_create_texture ctx data.width data.height components
          META_TEXTURE_ALLOW_SLICING with
      | Outcome.undefined => (calls, Exit.undefined)
      | Outcome.g_error msg => (calls ++ [Call.g_error msg], Exit.aborted)
      | Outcome.ok texture =>
        let calls := calls ++ [Call.cogl_texture_set_data texture row_stride pixels]
        if !libs.cogl_texture_set_data texture then
          (calls ++ [Call.g_error "Failed to create texture for background"], Exit.aborted)
        else
          let calls := calls ++
            [ Call.onscreen_new_and_show,
              Call.stdout "data.window_width: 1920, data.window_height: 1080\n",
              Call.primitive_new,
              Call.pipeline_new texture ]
          match get_filter_by_idx (libs.atoi (argv.getD 2 "")) with
          | none => (calls, Exit.undefined)
          | some filter =>
            ( calls ++
                [ Call.set_layer_filters filter CoglPipelineFilter.NEAREST,
                  Call.add_frame_callback,
                  Call.add_dirty_callback,
                  Call.g_main_loop_run ],
              Exit.main_loop { data := data, sources := [], issued := 0, log := [] } )

/-! ## State predicates -/

/-- At most one idle source is attached, and none while `redraw_idle` is 0. -/
def pending_tracked (w : World) : Prop :=
  w.sources.length ≤ 1 ∧ (w.data.redraw_idle = 0 → w.sources = [])

/-- A set `redraw_idle` comes with `is_dirty` and `draw_ready` both set. -/
def pending_justified (w : World) : Prop :=
  w.data.redraw_idle ≠ 0 → w.data.is_dirty ≠ 0 ∧ w.data.draw_ready ≠ 0

/-- The state after a burst `pre` of notifications delivered to `w0`, which was not dirty,
not ready and had nothing pending: the flags record which kinds of notification occurred,
and one source has been attached once both a damage and a sync notification occurred. -/
def burst_state (sched : Nat → Nat) (w0 : World) (pre : List Notify) (w : World) : Prop :=
  w.log = w0.log ∧
    (w.data.is_dirty ≠ 0 ↔ Notify.dirty ∈ pre) ∧
    (w.data.draw_ready ≠ 0 ↔ Notify.frame CoglFrameEvent.SYNC ∈ pre) ∧
    (Notify.dirty ∈ pre ∧ Notify.frame CoglFrameEvent.SYNC ∈ pre →
      w.data.redraw_idle ≠ 0 ∧ w.issued = w0.issued + 1 ∧
        w.sources = w0.sources ++ [sched w0.issued]) ∧
    (¬ (Notify.dirty ∈ pre ∧ Notify.frame CoglFrameEvent.SYNC ∈ pre) →
      w.data.redraw_idle = 0 ∧ w.issued = w0.issued ∧ w.sources = w0.sources)

/-! ## Concrete inputs -/

/-- A context without NPOT and without rectangle textures; every allocation succeeds. -/
def bare_ctx : CoglContext :=
  { has_feature := fun _ => false, can_allocate := fun _ => true, max_waste := 127 }

/-- A context with rectangle textures only; every allocation succeeds. -/
def rectangle_ctx : CoglContext :=
  { has_feature := fun f => decide (f = CoglFeatureID.TEXTURE_RECTANGLE),
    can_allocate := fun _ => true, max_waste := 127 }

/-- A context with NPOT textures on which only sliced textures can be allocated. -/
def npot_ctx : CoglContext :=
  { has_feature := fun f => decide (f = CoglFeatureID.TEXTURE_NPOT),
    can_allocate := fun t => decide (t.kind = TextureKind.sliced_2d 127), max_waste := 127 }

/-- GLib numbers the sources it attaches 1, 2, 3, ... -/
def glib_ids : Nat → Nat :=
  fun n => n + 1

/-- Nothing dirty, not ready, nothing pending: the state `paint_cb` leaves behind. -/
def idle_world : World :=
  { data := { redraw_idle := 0, is_dirty := FALSE, draw_ready := FALSE, width := 640, height := 480 },
    sources := [], issued := 0, log := [] }

/-- Dirty and ready with nothing pending. -/
def armed_world : World :=
  { data := { redraw_idle := 0, is_dirty := TRUE, draw_ready := TRUE, width := 640, height := 480 },
    sources := [], issued := 0, log := [] }

/-- The state left by one full cycle from `idle_world`: damage, a sync, and the dispatch
of the idle source. -/
def after_first_cycle : World :=
  run glib_ids
    [ Event.notify Notify.dirty, Event.notify (Notify.frame CoglFrameEvent.SYNC),
      Event.fire 0 quiet ]
    idle_world

/-- A damage notification arrives while the primitive is drawn. -/
def dirty_in_draw : RenderOp → List Notify :=
  fun op => if op = RenderOp.primitive_draw then [Notify.dirty] else []

/-- A context with both features that allocates textures of positive size. -/
def desktop_ctx : CoglContext :=
  { has_feature := fun _ => true,
    can_allocate := fun t => decide (0 < t.width ∧ 0 < t.height),
    max_waste := 127 }

/-- Libraries on a machine where the image file exists and decodes to a 640 x 480 RGB
picture.  The getters answer a `NULL` pixbuf with -1, `FALSE` and `NULL`, as
GdkPixbuf does. -/
def working_libs : Libs :=
  { g_file_read := fun _ => some 3,
    gdk_pixbuf_new_from_stream := fun _ =>
      some { width := 640, height := 480, has_alpha := 0, rowstride := 1920, pixels := 4096 },
    null_pixbuf := { width := -1, height := -1, has_alpha := 0, rowstride := -1, pixels := 0 },
    atoi := fun _ => 1,
    cogl_context_new := Except.ok desktop_ctx,
    cogl_texture_set_data := fun t => decide (0 < t.width ∧ 0 < t.height) }

/-- The same machine when the image file cannot be opened. -/
def missing_file_libs : Libs :=
  { working_libs with g_file_read := fun _ => none }

/-- Stack content under `data` in which the word of `draw_ready` is not zero. -/
def stale_stack : Data :=
  { redraw_idle := 3735928559, is_dirty := 0, draw_ready := 1, width := 0, height := 0 }

def demo_argv : List String :=
  ["image-resize", "photo.png", "1"]

/-! ## Lemmas on powers of two -/

theorem land_pred_eq_zero_iff (n : Nat) (hn : 0 < n) :
    n &&& (n - 1) = 0 ↔ ∃ k, n = 2 ^ k := by
  induction n using Nat.strong_induction_on with
  | _ n ih =>
    rcases Nat.even_or_odd' n with ⟨m, rfl | rfl⟩
    · have hm : 0 < m := by omega
      have h1 : 2 * m - 1 = 2 * (m - 1) + 1 := by omega
      have key : (2 * m) &&& (2 * m - 1) = 2 * (m &&& (m - 1)) := by
        rw [h1]
        have := Nat.land_bit false m true (m - 1)
        simpa [Nat.bit_val] using this
      rw [key]
      constructor
      · intro h
        have h0 : m &&& (m - 1) = 0 := by omega
        obtain ⟨k, hk⟩ := (ih m (by omega) hm).1 h0
        exact ⟨k + 1, by rw [hk, pow_succ]; ring⟩
      · rintro ⟨k, hk⟩
        cases k with
        | zero => omega
        | succ k =>
          have : m = 2 ^ k := by rw [pow_succ] at hk; omega
          rw [(ih m (by omega) hm).2 ⟨k, this⟩]
    · have h1 : 2 * m + 1 - 1 = 2 * m := by omega
      have key : (2 * m + 1) &&& (2 * m + 1 - 1) = 2 * m := by
        rw [h1]
        have := Nat.land_bit true m false m
        simpa [Nat.bit_val] using this
      rw [key]
      constructor
      · intro h
        exact ⟨0, by omega⟩
      · rintro ⟨k, hk⟩
        cases k with
        | zero => simp at hk; omega
        | succ k => rw [pow_succ] at hk; omega

theorem is_pot_of_pos (n : Nat) (hn : 0 < n) (hmax : (n : Int) ≤ INT_MAX) :
    is_pot (n : Int) = some (decide (n &&& (n - 1) = 0)) := by
  have hpos : (n : Int) > 0 := by exact_mod_cast hn
  have hsub : int_sub (n : Int) 1 = some (((n - 1 : Nat) : Int)) := by
    unfold int_sub
    have hc : ((n - 1 : Nat) : Int) = (n : Int) - 1 := by omega
    have hr : INT_MIN ≤ (n : Int) - 1 ∧ (n : Int) - 1 ≤ INT_MAX := by
      unfold INT_MIN; unfold INT_MAX at *; omega
    rw [if_pos hr, hc]
  have hland : Int.land (n : Int) ((n - 1 : Nat) : Int) = ((n &&& (n - 1) : Nat) : Int) := rfl
  unfold is_pot
  rw [if_pos hpos, hsub]
  simp only [hland]
  congr 1
  by_cases h : n &&& (n - 1) = 0
  · simp [h]
  · simp [h]

/-- On 32-bit inputs `is_pot` is defined and decides being a power of two. -/
theorem is_pot_iff (x : Int) (hhi : x ≤ INT_MAX) :
    ∃ b, is_pot x = some b ∧ (b = true ↔ ∃ k : Nat, k ≤ 30 ∧ x = 2 ^ k) := by
  by_cases hx : x > 0
  · obtain ⟨n, rfl⟩ := Int.eq_ofNat_of_zero_le (le_of_lt hx)
    have hn : 0 < n := by exact_mod_cast hx
    refine ⟨decide (n &&& (n - 1) = 0), is_pot_of_pos n hn hhi, ?_⟩
    rw [decide_eq_true_iff, land_pred_eq_zero_iff n hn]
    constructor
    · rintro ⟨k, rfl⟩
      refine ⟨k, ?_, by push_cast; rfl⟩
      by_contra hk
      have h31 : 2 ^ 31 ≤ 2 ^ k := Nat.pow_le_pow_right (by decide) (by omega)
      have : ((2 ^ k : Nat) : Int) ≤ 2147483647 := hhi
      omega
    · rintro ⟨k, _, hk⟩
      exact ⟨k, by exact_mod_cast hk⟩
  · refine ⟨false, by unfold is_pot; rw [if_neg hx], ?_⟩
    constructor
    · intro h; cases h
    · rintro ⟨k, _, hk⟩
      exact absurd (hk ▸ (by positivity : (0 : Int) < 2 ^ k)) hx

/-! ## Lemmas on the callbacks -/

theorem glib_ids_ne_zero : ∀ n, glib_ids n ≠ 0 :=
  fun n => Nat.succ_ne_zero n

theorem maybe_redraw_flags (sched : Nat → Nat) (w : World) :
    (maybe_redraw sched w).data.is_dirty = w.data.is_dirty ∧
      (maybe_redraw sched w).data.draw_ready = w.data.draw_ready ∧
      (maybe_redraw sched w).log = w.log := by
  unfold maybe_redraw
  split <;> exact ⟨rfl, rfl, rfl⟩

theorem deliver_log (sched : Nat → Nat) (n : Notify) (w : World) :
    (deliver sched n w).log = w.log := by
  cases n with
  | dirty => exact (maybe_redraw_flags sched _).2.2
  | frame event =>
    show (frame_event_cb sched event w).log = w.log
    unfold frame_event_cb
    split
    · exact (maybe_redraw_flags sched _).2.2
    · rfl

theorem deliver_keeps_dirty (sched : Nat → Nat) (n : Notify) (w : World)
    (h : w.data.is_dirty = TRUE) : (deliver sched n w).data.is_dirty = TRUE := by
  cases n with
  | dirty => exact (maybe_redraw_flags sched _).1
  | frame event =>
    show (frame_event_cb sched event w).data.is_dirty = TRUE
    unfold frame_event_cb
    split
    · rw [(maybe_redraw_flags sched _).1]; exact h
    · exact h

theorem deliver_all_log (sched : Nat → Nat) (ns : List Notify) (w : World) :
    (deliver_all sched ns w).log = w.log := by
  induction ns generalizing w with
  | nil => rfl
  | cons n ns ih =>
    show (deliver_all sched ns (deliver sched n w)).log = w.log
    rw [ih, deliver_log]

theorem deliver_all_dirty (sched : Nat → Nat) (ns : List Notify) (w : World)
    (h : Notify.dirty ∈ ns ∨ w.data.is_dirty = TRUE) :
    (deliver_all sched ns w).data.is_dirty = TRUE := by
  induction ns generalizing w with
  | nil =>
    rcases h with h | h
    · cases h
    · exact h
  | cons n ns ih =>
    show (deliver_all sched ns (deliver sched n w)).data.is_dirty = TRUE
    apply ih
    rcases h with h | h
    · rcases List.mem_cons.1 h with h | h
      · right
        rw [← h]
        exact (maybe_redraw_flags sched _).1
      · left; exact h
    · right; exact deliver_keeps_dirty sched n w h

theorem renderer_call_log (sched : Nat → Nat) (op : RenderOp) (raised : List Notify)
    (w : World) : (renderer_call sched op raised w).log = w.log ++ [op] := by
  unfold renderer_call
  rw [deliver_all_log]

theorem renderer_call_dirty (sched : Nat → Nat) (op : RenderOp) (raised : List Notify)
    (w : World) (h : Notify.dirty ∈ raised ∨ w.data.is_dirty = TRUE) :
    (renderer_call sched op raised w).data.is_dirty = TRUE := by
  unfold renderer_call
  exact deliver_all_dirty sched raised _ h

/-! ## Invariants of the main loop -/

theorem maybe_redraw_tracked (sched : Nat → Nat) (hs : ∀ n, sched n ≠ 0) (w : World)
    (h : pending_tracked w) : pending_tracked (maybe_redraw sched w) := by
  unfold maybe_redraw
  split
  · next hc =>
    have hnil : w.sources = [] := h.2 hc.2.2
    constructor
    · show (w.sources ++ [sched w.issued]).length ≤ 1
      rw [hnil]; simp
    · intro h0
      exact absurd h0 (hs _)
  · exact h

theorem deliver_tracked (sched : Nat → Nat) (hs : ∀ n, sched n ≠ 0) (n : Notify) (w : World)
    (h : pending_tracked w) : pending_tracked (deliver sched n w) := by
  cases n with
  | dirty => exact maybe_redraw_tracked sched hs _ h
  | frame event =>
    show pending_tracked (frame_event_cb sched event w)
    unfold frame_event_cb
    split
    · exact maybe_redraw_tracked sched hs _ h
    · exact h

theorem deliver_all_tracked (sched : Nat → Nat) (hs : ∀ n, sched n ≠ 0) (ns : List Notify)
    (w : World) (h : pending_tracked w) : pending_tracked (deliver_all sched ns w) := by
  induction ns generalizing w with
  | nil => exact h
  | cons n ns ih => exact ih _ (deliver_tracked sched hs n w h)

theorem renderer_call_tracked (sched : Nat → Nat) (hs : ∀ n, sched n ≠ 0) (op : RenderOp)
    (raised : List Notify) (w : World) (h : pending_tracked w) :
    pending_tracked (renderer_call sched op raised w) :=
  deliver_all_tracked sched hs raised _ h

theorem paint_cb_tracked (sched : Nat → Nat) (hs : ∀ n, sched n ≠ 0)
    (raised : RenderOp → List Notify) (w : World) (h : w.sources = []) :
    pending_tracked (paint_cb sched raised w).1 := by
  apply renderer_call_tracked sched hs
  apply renderer_call_tracked sched hs
  apply renderer_call_tracked sched hs
  exact ⟨by show w.sources.length ≤ 1; rw [h]; simp, fun _ => h⟩

theorem dispatch_idle_tracked (sched : Nat → Nat) (hs : ∀ n, sched n ≠ 0)
    (raised : RenderOp → List Notify) (k : Nat) (w : World) (h : pending_tracked w) :
    pending_tracked (dispatch_idle sched raised k w) := by
  unfold dispatch_idle
  split
  · exact h
  · next id hget =>
    have hnil : w.sources.eraseIdx k = [] := by
      have hk : k < w.sources.length := (List.get?_eq_some.1 hget).1
      have hlen := h.1
      have : (w.sources.eraseIdx k).length = 0 := by
        rw [List.length_eraseIdx]
        rw [if_pos hk]; omega
      exact List.length_eq_zero.1 this
    have hrem : (paint_cb sched raised { w with sources := w.sources.eraseIdx k }).2 = 0 := rfl
    simp only [hrem, ne_eq, not_true_eq_false, if_false]
    exact paint_cb_tracked sched hs raised _ hnil

theorem step_tracked (sched : Nat → Nat) (hs : ∀ n, sched n ≠ 0) (e : Event) (w : World)
    (h : pending_tracked w) : pending_tracked (step sched e w) := by
  cases e with
  | notify n => exact deliver_tracked sched hs n w h
  | fire k raised => exact dispatch_idle_tracked sched hs raised k w h

theorem run_tracked (sched : Nat → Nat) (hs : ∀ n, sched n ≠ 0) (es : List Event) (w : World)
    (h : pending_tracked w) : pending_tracked (run sched es w) := by
  induction es generalizing w with
  | nil => exact h
  | cons e es ih => exact ih _ (step_tracked sched hs e w h)

theorem TRUE_ne_zero : TRUE ≠ 0 := by decide

theorem maybe_redraw_justified (sched : Nat → Nat) (w : World) (h : pending_justified w) :
    pending_justified (maybe_redraw sched w) := by
  unfold maybe_redraw
  split
  · next hc => exact fun _ => ⟨hc.1, hc.2.1⟩
  · exact h

theorem deliver_justified (sched : Nat → Nat) (n : Notify) (w : World)
    (h : pending_justified w) : pending_justified (deliver sched n w) := by
  cases n with
  | dirty =>
    apply maybe_redraw_justified
    intro h0
    exact ⟨TRUE_ne_zero, (h h0).2⟩
  | frame event =>
    show pending_justified (frame_event_cb sched event w)
    unfold frame_event_cb
    split
    · apply maybe_redraw_justified
      intro h0
      exact ⟨(h h0).1, TRUE_ne_zero⟩
    · exact h

theorem deliver_all_justified (sched : Nat → Nat) (ns : List Notify) (w : World)
    (h : pending_justified w) : pending_justified (deliver_all sched ns w) := by
  induction ns generalizing w with
  | nil => exact h
  | cons n ns ih => exact ih _ (deliver_justified sched n w h)

theorem paint_cb_justified (sched : Nat → Nat) (raised : RenderOp → List Notify) (w : World) :
    pending_justified (paint_cb sched raised w).1 := by
  apply deliver_all_justified
  apply deliver_all_justified
  apply deliver_all_justified
  intro h0
  exact absurd rfl h0

theorem step_justified (sched : Nat → Nat) (e : Event) (w : World)
    (h : pending_justified w) : pending_justified (step sched e w) := by
  cases e with
  | notify n => exact deliver_justified sched n w h
  | fire k raised =>
    show pending_justified (dispatch_idle sched raised k w)
    unfold dispatch_idle
    split
    · exact h
    · have hrem : ∀ v, (paint_cb sched raised v).2 = 0 := fun _ => rfl
      simp only [hrem, ne_eq, not_true_eq_false, if_false]
      exact paint_cb_justified sched raised _

theorem run_justified (sched : Nat → Nat) (es : List Event) (w : World)
    (h : pending_justified w) : pending_justified (run sched es w) := by
  induction es generalizing w with
  | nil => exact h
  | cons e es ih => exact ih _ (step_justified sched e w h)

/-! ## Bursts of notifications -/

theorem maybe_redraw_pos (sched : Nat → Nat) (w : World)
    (hc : w.data.is_dirty ≠ 0 ∧ w.data.draw_ready ≠ 0 ∧ w.data.redraw_idle = 0) :
    maybe_redraw sched w =
      { data := { w.data with redraw_idle := sched w.issued },
        sources := w.sources ++ [sched w.issued],
        issued := w.issued + 1,
        log := w.log } := by
  unfold maybe_redraw
  rw [if_pos hc]
  rfl

theorem maybe_redraw_neg (sched : Nat → Nat) (w : World)
    (hc : ¬ (w.data.is_dirty ≠ 0 ∧ w.data.draw_ready ≠ 0 ∧ w.data.redraw_idle = 0)) :
    maybe_redraw sched w = w := by
  unfold maybe_redraw
  rw [if_neg hc]

theorem run_notify (sched : Nat → Nat) (ns : List Notify) (w : World) :
    run sched (ns.map Event.notify) w = deliver_all sched ns w := by
  induction ns generalizing w with
  | nil => rfl
  | cons n ns ih => exact ih _

theorem deliver_all_snoc (sched : Nat → Nat) (ns : List Notify) (n : Notify) (w : World) :
    deliver_all sched (ns ++ [n]) w = deliver sched n (deliver_all sched ns w) := by
  unfold deliver_all
  rw [List.foldl_append]
  rfl

theorem burst_state_dirty (sched : Nat → Nat) (hs : ∀ n, sched n ≠ 0) (w0 : World)
    (pre : List Notify) (w : World) (h : burst_state sched w0 pre w) :
    burst_state sched w0 (pre ++ [Notify.dirty]) (dirty_cb sched w) := by
  obtain ⟨hlog, hd, hr, hboth, hnot⟩ := h
  show burst_state sched w0 _
    (maybe_redraw sched { w with data := { w.data with is_dirty := TRUE } })
  generalize hw1 : ({ w with data := { w.data with is_dirty := TRUE } } : World) = w1
  have e_idle : w1.data.redraw_idle = w.data.redraw_idle := by rw [← hw1]
  have e_dirty : w1.data.is_dirty = TRUE := by rw [← hw1]
  have e_ready : w1.data.draw_ready = w.data.draw_ready := by rw [← hw1]
  have e_iss : w1.issued = w.issued := by rw [← hw1]
  have e_src : w1.sources = w.sources := by rw [← hw1]
  have e_log : w1.log = w.log := by rw [← hw1]
  rw [← e_idle, ← e_iss, ← e_src] at hboth hnot
  rw [← e_ready] at hr
  rw [← e_log] at hlog
  have hd1 : w1.data.is_dirty ≠ 0 := by rw [e_dirty]; exact TRUE_ne_zero
  clear hd hw1 e_idle e_ready e_iss e_src e_log e_dirty
  by_cases hsync : Notify.frame CoglFrameEvent.SYNC ∈ pre
  · by_cases hdirty : Notify.dirty ∈ pre
    · obtain ⟨hidle, hiss, hsrc⟩ := hboth ⟨hdirty, hsync⟩
      rw [maybe_redraw_neg _ _ (fun hc => hidle hc.2.2)]
      refine ⟨hlog, ?_, ?_, ?_, ?_⟩
      · simpa using hd1
      · simpa using hr
      · intro _; exact ⟨hidle, hiss, hsrc⟩
      · intro hn; exact absurd ⟨by simp, by simp [hsync]⟩ hn
    · obtain ⟨hidle, hiss, hsrc⟩ := hnot (fun hc => hdirty hc.1)
      rw [maybe_redraw_pos _ _ ⟨hd1, hr.2 hsync, hidle⟩]
      refine ⟨hlog, ?_, ?_, ?_, ?_⟩
      · simpa using hd1
      · simpa using hr
      · intro _
        refine ⟨hs _, ?_, ?_⟩
        · show w1.issued + 1 = w0.issued + 1
          rw [hiss]
        · show w1.sources ++ [sched w1.issued] = w0.sources ++ [sched w0.issued]
          rw [hiss, hsrc]
      · intro hn; exact absurd ⟨by simp, by simp [hsync]⟩ hn
  · obtain ⟨hidle, hiss, hsrc⟩ := hnot (fun hc => hsync hc.2)
    have hr0 : ¬ w1.data.draw_ready ≠ 0 := fun hc => hsync (hr.1 hc)
    rw [maybe_redraw_neg _ _ (fun hc => hr0 hc.2.1)]
    refine ⟨hlog, ?_, ?_, ?_, ?_⟩
    · simpa using hd1
    · simpa using hr
    · intro hc
      exact absurd (by simpa using hc.2) hsync
    · intro _; exact ⟨hidle, hiss, hsrc⟩

theorem burst_state_sync (sched : Nat → Nat) (hs : ∀ n, sched n ≠ 0) (w0 : World)
    (pre : List Notify) (w : World) (h : burst_state sched w0 pre w) :
    burst_state sched w0 (pre ++ [Notify.frame CoglFrameEvent.SYNC])
      (frame_event_cb sched CoglFrameEvent.SYNC w) := by
  obtain ⟨hlog, hd, hr, hboth, hnot⟩ := h
  unfold frame_event_cb
  rw [if_pos rfl]
  generalize hw1 : ({ w with data := { w.data with draw_ready := TRUE } } : World) = w1
  have e_idle : w1.data.redraw_idle = w.data.redraw_idle := by rw [← hw1]
  have e_dirty : w1.data.is_dirty = w.data.is_dirty := by rw [← hw1]
  have e_ready : w1.data.draw_ready = TRUE := by rw [← hw1]
  have e_iss : w1.issued = w.issued := by rw [← hw1]
  have e_src : w1.sources = w.sources := by rw [← hw1]
  have e_log : w1.log = w.log := by rw [← hw1]
  rw [← e_idle, ← e_iss, ← e_src] at hboth hnot
  rw [← e_dirty] at hd
  rw [← e_log] at hlog
  have hr1 : w1.data.draw_ready ≠ 0 := by rw [e_ready]; exact TRUE_ne_zero
  clear hr hw1 e_idle e_ready e_iss e_src e_log e_dirty
  by_cases hdirty : Notify.dirty ∈ pre
  · by_cases hsync : Notify.frame CoglFrameEvent.SYNC ∈ pre
    · obtain ⟨hidle, hiss, hsrc⟩ := hboth ⟨hdirty, hsync⟩
      rw [maybe_redraw_neg _ _ (fun hc => hidle hc.2.2)]
      refine ⟨hlog, ?_, ?_, ?_, ?_⟩
      · simpa using hd
      · simpa using hr1
      · intro _; exact ⟨hidle, hiss, hsrc⟩
      · intro hn; exact absurd ⟨by simp [hdirty], by simp⟩ hn
    · obtain ⟨hidle, hiss, hsrc⟩ := hnot (fun hc => hsync hc.2)
      rw [maybe_redraw_pos _ _ ⟨hd.2 hdirty, hr1, hidle⟩]
      refine ⟨hlog, ?_, ?_, ?_, ?_⟩
      · simpa using hd
      · simpa using hr1
      · intro _
        refine ⟨hs _, ?_, ?_⟩
        · show w1.issued + 1 = w0.issued + 1
          rw [hiss]
        · show w1.sources ++ [sched w1.issued] = w0.sources ++ [sched w0.issued]
          rw [hiss, hsrc]
      · intro hn; exact absurd ⟨by simp [hdirty], by simp⟩ hn
  · obtain ⟨hidle, hiss, hsrc⟩ := hnot (fun hc => hdirty hc.1)
    have hd0 : ¬ w1.data.is_dirty ≠ 0 := fun hc => hdirty (hd.1 hc)
    rw [maybe_redraw_neg _ _ (fun hc => hd0 hc.1)]
    refine ⟨hlog, ?_, ?_, ?_, ?_⟩
    · simpa using hd
    · simpa using hr1
    · intro hc
      exact absurd (by simpa using hc.1) hdirty
    · intro _; exact ⟨hidle, hiss, hsrc⟩

theorem burst_state_deliver_all (sched : Nat → Nat) (hs : ∀ n, sched n ≠ 0) (w0 : World)
    (hidle : w0.data.redraw_idle = 0) (hdirty : w0.data.is_dirty = FALSE)
    (hready : w0.data.draw_ready = FALSE) (pre : List Notify) :
    burst_state sched w0 pre (deliver_all sched pre w0) := by
  induction pre using List.reverseRecOn with
  | nil =>
    refine ⟨rfl, ?_, ?_, ?_, ?_⟩
    · simp [deliver_all, hdirty, FALSE]
    · simp [deliver_all, hready, FALSE]
    · intro hc; exact absurd hc.1 (List.not_mem_nil _)
    · intro _; exact ⟨hidle, rfl, rfl⟩
  | append_singleton pre n ih =>
    rw [deliver_all_snoc]
    cases n with
    | dirty => exact burst_state_dirty sched hs w0 pre _ ih
    | frame event =>
      cases event with
      | SYNC => exact burst_state_sync sched hs w0 pre _ ih
      | COMPLETE =>
        obtain ⟨hlog, hd, hr, hboth, hnot⟩ := ih
        show burst_state sched w0 _ (deliver_all sched pre w0)
        refine ⟨hlog, ?_, ?_, ?_, ?_⟩
        · simpa using hd
        · simpa using hr
        · intro hc; exact hboth (by simpa using hc)
        · intro hc; exact hnot (by simpa using hc)

theorem dispatch_idle_quiet_single (sched : Nat → Nat) (id : Nat) (w : World)
    (h : w.sources = [id]) :
    dispatch_idle sched quiet 0 w =
      { data := { w.data with redraw_idle := 0, is_dirty := FALSE, draw_ready := FALSE },
        sources := [],
        issued := w.issued,
        log := w.log ++ [RenderOp.clear4f, RenderOp.primitive_draw, RenderOp.swap_buffers] } := by
  simp [dispatch_idle, h, paint_cb, renderer_call, deliver_all, quiet, G_SOURCE_REMOVE, FALSE]

theorem dispatch_idle_none (sched : Nat → Nat) (raised : RenderOp → List Notify) (k : Nat)
    (w : World) (h : w.sources = []) : dispatch_idle sched raised k w = w := by
  simp [dispatch_idle, h]

theorem run_fire_none (sched : Nat → Nat) (j : Nat) (w : World) (h : w.sources = []) :
    run sched (List.replicate j (Event.fire 0 quiet)) w = w := by
  induction j with
  | zero => rfl
  | succ j ih =>
    show run sched (List.replicate j (Event.fire 0 quiet)) (dispatch_idle sched quiet 0 w) = w
    rw [dispatch_idle_none sched quiet 0 w h, ih]

theorem run_append (sched : Nat → Nat) (es fs : List Event) (w : World) :
    run sched (es ++ fs) w = run sched fs (run sched es w) := by
  unfold run
  rw [List.foldl_append]

/-- From a state that is not ready and has nothing pending, damage notifications alone
attach no source, however many there are. -/
theorem dirty_only_never_schedules (sched : Nat → Nat) (n : Nat) (w : World)
    (hready : w.data.draw_ready = FALSE) :
    (deliver_all sched (List.replicate n Notify.dirty) w).issued = w.issued ∧
      (deliver_all sched (List.replicate n Notify.dirty) w).sources = w.sources ∧
      (deliver_all sched (List.replicate n Notify.dirty) w).data.redraw_idle =
        w.data.redraw_idle := by
  induction n generalizing w with
  | zero => exact ⟨rfl, rfl, rfl⟩
  | succ n ih =>
    have hstep : dirty_cb sched w = { w with data := { w.data with is_dirty := TRUE } } := by
      unfold dirty_cb
      apply maybe_redraw_neg
      intro hc
      exact hc.2.1 hready
    show (deliver_all sched (List.replicate n Notify.dirty) (dirty_cb sched w)).issued = _ ∧
      (deliver_all sched (List.replicate n Notify.dirty) (dirty_cb sched w)).sources = _ ∧
      (deliver_all sched (List.replicate n Notify.dirty) (dirty_cb sched w)).data.redraw_idle = _
    rw [hstep]
    exact ih _ hready

/-! ## Claims -/

/-- C10: for every 32-bit signed `x`, `is_pot x` has a defined result, the result is true
exactly when `x = 2 ^ k` for some `0 ≤ k ≤ 30`, and it is false for zero and every
negative `x`.  The subtraction `INT_MIN - 1` would overflow, but `x - 1` is only evaluated
when `x > 0`, so `is_pot INT_MIN` is defined and false. -/
theorem is_pot_spec (x : Int) (_hlo : INT_MIN ≤ x) (hhi : x ≤ INT_MAX) :
    (∃ b, is_pot x = some b ∧ (b = true ↔ ∃ k : Nat, k ≤ 30 ∧ x = 2 ^ k)) ∧
      (x ≤ 0 → is_pot x = some false) ∧
      int_sub INT_MIN 1 = none ∧ is_pot INT_MIN = some false := by
  refine ⟨is_pot_iff x hhi, ?_, by decide, by decide⟩
  intro hx
  unfold is_pot
  rw [if_neg (by omega)]

/-- Witness for C10 at `x = 1024`. -/
theorem is_pot_spec_witness :
    (∃ b, is_pot 1024 = some b ∧ (b = true ↔ ∃ k : Nat, k ≤ 30 ∧ (1024 : Int) = 2 ^ k)) ∧
      ((1024 : Int) ≤ 0 → is_pot 1024 = some false) ∧
      int_sub INT_MIN 1 = none ∧ is_pot INT_MIN = some false :=
  is_pot_spec 1024 (by decide) (by decide)

theorem meta_create_texture_tail_slicing (ctx : CoglContext) (r : Bool) (width height : Int)
    (components : CoglTextureComponents) :
    meta_create_texture_tail ctx r width height components META_TEXTURE_ALLOW_SLICING =
      if ctx.can_allocate
          { kind := if r then TextureKind.rectangle else TextureKind.texture_2d,
            width := width, height := height, components := some components } then
        { kind := if r then TextureKind.rectangle else TextureKind.texture_2d,
          width := width, height := height, components := some components }
      else
        { kind := TextureKind.sliced_2d ctx.max_waste,
          width := width, height := height, components := some components } := by
  have hflag : (META_TEXTURE_ALLOW_SLICING &&& META_TEXTURE_ALLOW_SLICING) ≠ 0 := by decide
  unfold meta_create_texture_tail
  rw [if_pos hflag]
  cases r <;> simp only [cogl_texture_set_components, if_true, if_false, Bool.false_eq_true] <;>
    split <;> simp_all

/-- C9 (amended): with `META_TEXTURE_ALLOW_SLICING` and 32-bit sizes, `meta_create_texture`
ends in `g_error` when the size is not a power of two in both directions and the context
has neither NPOT nor rectangle textures.  Otherwise the preferred texture is a rectangle
texture (size not a power of two, no NPOT, rectangle textures present) or a 2D texture,
with the requested components; it is returned when its storage can be allocated, and a
sliced texture with the requested components is returned when it cannot. -/
theorem meta_create_texture_slicing (ctx : CoglContext) (width height : Int)
    (components : CoglTextureComponents) (hw : width ≤ INT_MAX) (hh : height ≤ INT_MAX) :
    ∃ pot : Bool,
      both_pot width height = some pot ∧
      (pot = true ↔
        (∃ k : Nat, k ≤ 30 ∧ width = 2 ^ k) ∧ (∃ k : Nat, k ≤ 30 ∧ height = 2 ^ k)) ∧
      meta_create_texture ctx width height components META_TEXTURE_ALLOW_SLICING =
        if (!pot && !ctx.has_feature CoglFeatureID.TEXTURE_NPOT) &&
            !ctx.has_feature CoglFeatureID.TEXTURE_RECTANGLE then
          Outcome.g_error
            ("Cannot create texture. Support for GL_ARB_texture_non_power_of_two or " ++
              "ARB_texture_rectangle is required")
        else if ctx.can_allocate
            { kind := if !pot && !ctx.has_feature CoglFeatureID.TEXTURE_NPOT then
                TextureKind.rectangle else TextureKind.texture_2d,
              width := width, height := height, components := some components } then
          Outcome.ok
            { kind := if !pot && !ctx.has_feature CoglFeatureID.TEXTURE_NPOT then
                TextureKind.rectangle else TextureKind.texture_2d,
              width := width, height := height, components := some components }
        else
          Outcome.ok
            { kind := TextureKind.sliced_2d ctx.max_waste,
              width := width, height := height, components := some components } := by
  obtain ⟨bw, hbw, hbw_iff⟩ := is_pot_iff width hw
  obtain ⟨bh, hbh, hbh_iff⟩ := is_pot_iff height hh
  have hboth : both_pot width height = some (bw && bh) := by
    unfold both_pot
    rw [hbw]
    cases bw <;> simp [hbh]
  refine ⟨bw && bh, hboth, ?_, ?_⟩
  · rw [Bool.and_eq_true, hbw_iff, hbh_iff]
  · unfold meta_create_texture
    rw [hboth]
    simp only [meta_create_texture_tail_slicing]
    cases (bw && bh) <;> cases ctx.has_feature CoglFeatureID.TEXTURE_NPOT <;>
      cases ctx.has_feature CoglFeatureID.TEXTURE_RECTANGLE <;>
      simp <;> split <;> rfl

/-- Witness for C9 (amended): a 640 x 480 RGBA texture on a context where only sliced
textures can be allocated. -/
theorem meta_create_texture_slicing_witness :
    ∃ pot : Bool,
      both_pot 640 480 = some pot ∧
      (pot = true ↔
        (∃ k : Nat, k ≤ 30 ∧ (640 : Int) = 2 ^ k) ∧ (∃ k : Nat, k ≤ 30 ∧ (480 : Int) = 2 ^ k)) ∧
      meta_create_texture npot_ctx 640 480 CoglTextureComponents.RGBA
          META_TEXTURE_ALLOW_SLICING =
        if (!pot && !npot_ctx.has_feature CoglFeatureID.TEXTURE_NPOT) &&
            !npot_ctx.has_feature CoglFeatureID.TEXTURE_RECTANGLE then
          Outcome.g_error
            ("Cannot create texture. Support for GL_ARB_texture_non_power_of_two or " ++
              "ARB_texture_rectangle is required")
        else if npot_ctx.can_allocate
            { kind := if !pot && !npot_ctx.has_feature CoglFeatureID.TEXTURE_NPOT then
                TextureKind.rectangle else TextureKind.texture_2d,
              width := 640, height := 480, components := some CoglTextureComponents.RGBA } then
          Outcome.ok
            { kind := if !pot && !npot_ctx.has_feature CoglFeatureID.TEXTURE_NPOT then
                TextureKind.rectangle else TextureKind.texture_2d,
              width := 640, height := 480, components := some CoglTextureComponents.RGBA }
        else
          Outcome.ok
            { kind := TextureKind.sliced_2d npot_ctx.max_waste,
              width := 640, height := 480, components := some CoglTextureComponents.RGBA } :=
  meta_create_texture_slicing npot_ctx 640 480 CoglTextureComponents.RGBA
    (by decide) (by decide)

/-- C9 (counterexample): for a 3 x 5 texture, not a power of two, on a context without
NPOT support, `meta_create_texture` with `META_TEXTURE_ALLOW_SLICING` ends in `g_error`
when rectangle textures are missing too, and returns a rectangle texture, not a sliced
one, when they are present. -/
theorem meta_create_texture_no_sliced_fallback :
    both_pot 3 5 = some false ∧
      bare_ctx.has_feature CoglFeatureID.TEXTURE_NPOT = false ∧
      rectangle_ctx.has_feature CoglFeatureID.TEXTURE_NPOT = false ∧
      meta_create_texture bare_ctx 3 5 CoglTextureComponents.RGB META_TEXTURE_ALLOW_SLICING =
        Outcome.g_error
          ("Cannot create texture. Support for GL_ARB_texture_non_power_of_two or " ++
            "ARB_texture_rectangle is required") ∧
      meta_create_texture rectangle_ctx 3 5 CoglTextureComponents.RGB
          META_TEXTURE_ALLOW_SLICING =
        Outcome.ok
          { kind := TextureKind.rectangle, width := 3, height := 5,
            components := some CoglTextureComponents.RGB } := by
  refine ⟨by decide, rfl, rfl, rfl, rfl⟩

theorem get_filter_by_idx_none (idx : Int) (h : idx < 0 ∨ 6 ≤ idx) :
    get_filter_by_idx idx = none := by
  unfold get_filter_by_idx
  by_cases hneg : idx < 0
  · rw [if_pos hneg]
  · rw [if_neg hneg, List.get?_eq_none]
    have : filters.length = 6 := rfl
    omega

/-- C7: `get_filter_by_idx` reads a fixed table of six filters.  For `0 ≤ idx ≤ 5` it
returns the entry at `idx`, which is the filter `print_usage` lists under that index, and
distinct indices give distinct filters.  The read is inside the table exactly when
`0 ≤ idx ≤ 5`; for a negative index or one that is 6 or more it has no defined result. -/
theorem get_filter_by_idx_table (idx : Int) (exec : String) :
    filters =
        [ CoglPipelineFilter.NEAREST, CoglPipelineFilter.LINEAR,
          CoglPipelineFilter.NEAREST_MIPMAP_NEAREST, CoglPipelineFilter.LINEAR_MIPMAP_NEAREST,
          CoglPipelineFilter.NEAREST_MIPMAP_LINEAR, CoglPipelineFilter.LINEAR_MIPMAP_LINEAR ] ∧
      (0 ≤ idx ∧ idx ≤ 5 →
        ∃ f, get_filter_by_idx idx = some f ∧ filters.get? idx.toNat = some f ∧
          (print_usage exec).get? (idx.toNat + 2) =
            some (toString idx.toNat ++ ": " ++ filter_name f ++ "\n")) ∧
      (∀ j : Int, 0 ≤ idx ∧ idx ≤ 5 → 0 ≤ j ∧ j ≤ 5 →
        get_filter_by_idx idx = get_filter_by_idx j → idx = j) ∧
      ((∃ f, get_filter_by_idx idx = some f) ↔ 0 ≤ idx ∧ idx ≤ 5) ∧
      (idx < 0 ∨ 6 ≤ idx → get_filter_by_idx idx = none) := by
  refine ⟨rfl, ?_, ?_, ?_, ?_⟩
  · rintro ⟨h0, h5⟩
    interval_cases idx
    · exact ⟨_, rfl, rfl, rfl⟩
    · exact ⟨_, rfl, rfl, rfl⟩
    · exact ⟨_, rfl, rfl, rfl⟩
    · exact ⟨_, rfl, rfl, rfl⟩
    · exact ⟨_, rfl, rfl, rfl⟩
    · exact ⟨_, rfl, rfl, rfl⟩
  · rintro j ⟨h0, h5⟩ ⟨j0, j5⟩
    interval_cases idx <;> interval_cases j <;> decide
  · constructor
    · rintro ⟨f, hf⟩
      by_contra hr
      have hout : idx < 0 ∨ 6 ≤ idx := by omega
      rw [get_filter_by_idx_none idx hout] at hf
      cases hf
    · rintro ⟨h0, h5⟩
      interval_cases idx <;> exact ⟨_, rfl⟩
  · exact get_filter_by_idx_none idx

/-- Witness for C7 at index 3. -/
theorem get_filter_by_idx_table_witness :
    ∃ f, get_filter_by_idx 3 = some f ∧ filters.get? (3 : Int).toNat = some f ∧
      (print_usage "image-resize").get? ((3 : Int).toNat + 2) =
        some (toString (3 : Int).toNat ++ ": " ++ filter_name f ++ "\n") :=
  (get_filter_by_idx_table 3 "image-resize").2.1 ⟨by decide, by decide⟩

/-- C2: with a scheduler that only hands out non-zero ids, `maybe_redraw` attaches an idle
source exactly when, on entry, `is_dirty` and `draw_ready` are set and `redraw_idle` is 0.
It then attaches exactly one source, stores its non-zero id in `redraw_idle` and changes
nothing else.  In every other state, so whenever `redraw_idle` is already set, it leaves
the whole state as it is; calling it twice is the same as calling it once. -/
theorem maybe_redraw_spec (sched : Nat → Nat) (hs : ∀ n, sched n ≠ 0) (w : World) :
    ((maybe_redraw sched w).issued ≠ w.issued ↔
        (w.data.is_dirty ≠ 0 ∧ w.data.draw_ready ≠ 0 ∧ w.data.redraw_idle = 0)) ∧
      (w.data.is_dirty ≠ 0 ∧ w.data.draw_ready ≠ 0 ∧ w.data.redraw_idle = 0 →
        maybe_redraw sched w =
            { data := { w.data with redraw_idle := sched w.issued },
              sources := w.sources ++ [sched w.issued],
              issued := w.issued + 1,
              log := w.log } ∧
          (maybe_redraw sched w).data.redraw_idle ≠ 0) ∧
      (¬ (w.data.is_dirty ≠ 0 ∧ w.data.draw_ready ≠ 0 ∧ w.data.redraw_idle = 0) →
        maybe_redraw sched w = w) ∧
      (w.data.redraw_idle ≠ 0 → maybe_redraw sched w = w) ∧
      maybe_redraw sched (maybe_redraw sched w) = maybe_redraw sched w := by
  by_cases hc : w.data.is_dirty ≠ 0 ∧ w.data.draw_ready ≠ 0 ∧ w.data.redraw_idle = 0
  · have hval : maybe_redraw sched w =
        { data := { w.data with redraw_idle := sched w.issued },
          sources := w.sources ++ [sched w.issued],
          issued := w.issued + 1,
          log := w.log } := by
      unfold maybe_redraw
      rw [if_pos hc]
      rfl
    refine ⟨?_, ?_, ?_, ?_, ?_⟩
    · rw [hval]; simp [hc]
    · intro _
      refine ⟨hval, ?_⟩
      rw [hval]
      exact hs _
    · intro hn; exact absurd hc hn
    · intro hn; exact absurd hc.2.2 hn
    · rw [hval]
      unfold maybe_redraw
      rw [if_neg]
      rintro ⟨_, _, h0⟩
      exact hs _ h0
  · have hval : maybe_redraw sched w = w := by
      unfold maybe_redraw
      rw [if_neg hc]
    refine ⟨?_, ?_, ?_, ?_, ?_⟩
    · rw [hval]; simp only [ne_eq, not_true_eq_false, false_iff]; exact hc
    · intro h; exact absurd h hc
    · intro _; exact hval
    · intro _; exact hval
    · rw [hval, hval]

/-- Witness for C2: dirty and ready with nothing pending, ids numbered from 1. -/
theorem maybe_redraw_spec_witness :
    maybe_redraw glib_ids armed_world =
        { data := { armed_world.data with redraw_idle := glib_ids armed_world.issued },
          sources := armed_world.sources ++ [glib_ids armed_world.issued],
          issued := armed_world.issued + 1,
          log := armed_world.log } ∧
      (maybe_redraw glib_ids armed_world).data.redraw_idle ≠ 0 :=
  (maybe_redraw_spec glib_ids glib_ids_ne_zero armed_world).2.1 (by decide)

/-- C3: for every prior state, `paint_cb` returns `G_SOURCE_REMOVE` and is the three
framebuffer calls clear, draw, swap, in this order, run on the state in which
`redraw_idle`, `is_dirty` and `draw_ready` have already been set to `0`, `FALSE`, `FALSE`.
When no call raises a notification the three fields are exactly `0`, `FALSE`, `FALSE`
afterwards, whatever they were before.  A damage notification raised during any of the
three calls leaves `is_dirty` set when `paint_cb` returns. -/
theorem paint_cb_spec (sched : Nat → Nat) (raised : RenderOp → List Notify) (w : World) :
    (paint_cb sched raised w).2 = G_SOURCE_REMOVE ∧
      (paint_cb sched raised w).1 =
        renderer_call sched RenderOp.swap_buffers (raised RenderOp.swap_buffers)
          (renderer_call sched RenderOp.primitive_draw (raised RenderOp.primitive_draw)
            (renderer_call sched RenderOp.clear4f (raised RenderOp.clear4f)
              { w with data :=
                  { w.data with redraw_idle := 0, is_dirty := FALSE, draw_ready := FALSE } })) ∧
      (paint_cb sched raised w).1.log =
        w.log ++ [RenderOp.clear4f, RenderOp.primitive_draw, RenderOp.swap_buffers] ∧
      (paint_cb sched quiet w).1 =
        { w with
          data := { w.data with redraw_idle := 0, is_dirty := FALSE, draw_ready := FALSE },
          log := w.log ++ [RenderOp.clear4f, RenderOp.primitive_draw, RenderOp.swap_buffers] } ∧
      ((paint_cb sched quiet w).1.data.redraw_idle = 0 ∧
        (paint_cb sched quiet w).1.data.is_dirty = FALSE ∧
        (paint_cb sched quiet w).1.data.draw_ready = FALSE) ∧
      (∀ op, Notify.dirty ∈ raised op → (paint_cb sched raised w).1.data.is_dirty = TRUE) := by
  refine ⟨rfl, rfl, ?_, ?_, ⟨rfl, rfl, rfl⟩, ?_⟩
  · show (renderer_call sched _ _ (renderer_call sched _ _ (renderer_call sched _ _ _))).log = _
    rw [renderer_call_log, renderer_call_log, renderer_call_log]
    simp
  · simp [paint_cb, renderer_call, deliver_all, quiet, G_SOURCE_REMOVE]
  · intro op hop
    show (renderer_call sched _ _ (renderer_call sched _ _ (renderer_call sched _ _ _))).data.is_dirty
      = TRUE
    cases op
    · exact renderer_call_dirty _ _ _ _ (Or.inr (renderer_call_dirty _ _ _ _
        (Or.inr (renderer_call_dirty _ _ _ _ (Or.inl hop)))))
    · exact renderer_call_dirty _ _ _ _ (Or.inr (renderer_call_dirty _ _ _ _ (Or.inl hop)))
    · exact renderer_call_dirty _ _ _ _ (Or.inl hop)

/-- Witness for C3: a damage notification arrives while the primitive is drawn. -/
theorem paint_cb_spec_witness :
    (paint_cb glib_ids dirty_in_draw armed_world).1.data.is_dirty = TRUE :=
  (paint_cb_spec glib_ids dirty_in_draw armed_world).2.2.2.2.2 RenderOp.primitive_draw
    (by decide)

/-- C1: start with nothing dirty, not ready, nothing pending and no idle source attached,
and let the scheduler hand out non-zero ids only.  Then after every prefix of every finite
sequence of notifications and idle dispatches, at most one idle source is attached and
not yet dispatched. -/
theorem at_most_one_outstanding (sched : Nat → Nat) (hs : ∀ n, sched n ≠ 0) (w0 : World)
    (_hidle : w0.data.redraw_idle = 0) (_hdirty : w0.data.is_dirty = FALSE)
    (_hready : w0.data.draw_ready = FALSE) (hsrc : w0.sources = []) (es pre : List Event)
    (_hpre : pre <+: es) : (run sched pre w0).sources.length ≤ 1 := by
  have h0 : pending_tracked w0 := ⟨by rw [hsrc]; simp, fun _ => hsrc⟩
  exact (run_tracked sched hs pre w0 h0).1

/-- Witness for C1: two damage notifications, a sync, a dispatch during which damage and
a sync arrive again, and one more damage notification. -/
theorem at_most_one_outstanding_witness :
    (run glib_ids
        [ Event.notify Notify.dirty, Event.notify Notify.dirty,
          Event.notify (Notify.frame CoglFrameEvent.SYNC),
          Event.fire 0 (fun _ => [Notify.dirty, Notify.frame CoglFrameEvent.SYNC]),
          Event.notify Notify.dirty ]
        idle_world).sources.length ≤ 1 :=
  at_most_one_outstanding glib_ids glib_ids_ne_zero idle_world rfl rfl rfl rfl
    [ Event.notify Notify.dirty, Event.notify Notify.dirty,
      Event.notify (Notify.frame CoglFrameEvent.SYNC),
      Event.fire 0 (fun _ => [Notify.dirty, Notify.frame CoglFrameEvent.SYNC]),
      Event.notify Notify.dirty ]
    [ Event.notify Notify.dirty, Event.notify Notify.dirty,
      Event.notify (Notify.frame CoglFrameEvent.SYNC),
      Event.fire 0 (fun _ => [Notify.dirty, Notify.frame CoglFrameEvent.SYNC]),
      Event.notify Notify.dirty ]
    (List.prefix_refl _)

/-- C6: `maybe_redraw` changes `redraw_idle` only when `is_dirty` and `draw_ready` are both
set on entry; and in every state reached from (not dirty, not ready, nothing pending) by
notifications and idle dispatches, a non-zero `redraw_idle` comes with `is_dirty` and
`draw_ready` both set. -/
theorem pending_only_if_dirty_and_ready (sched : Nat → Nat) (w0 : World)
    (hidle : w0.data.redraw_idle = 0) (_hdirty : w0.data.is_dirty = FALSE)
    (_hready : w0.data.draw_ready = FALSE) (es : List Event) :
    (∀ w : World, (maybe_redraw sched w).data.redraw_idle ≠ w.data.redraw_idle →
        w.data.is_dirty ≠ 0 ∧ w.data.draw_ready ≠ 0) ∧
      ((run sched es w0).data.redraw_idle ≠ 0 →
        (run sched es w0).data.is_dirty ≠ 0 ∧ (run sched es w0).data.draw_ready ≠ 0) := by
  constructor
  · intro w hne
    unfold maybe_redraw at hne
    split at hne
    · next hc => exact ⟨hc.1, hc.2.1⟩
    · exact absurd rfl hne
  · exact run_justified sched es w0 (fun h => absurd hidle h)

/-- Witness for C6: damage, then a sync, from the idle state. -/
theorem pending_only_if_dirty_and_ready_witness :
    (run glib_ids [Event.notify Notify.dirty, Event.notify (Notify.frame CoglFrameEvent.SYNC)]
        idle_world).data.is_dirty ≠ 0 ∧
      (run glib_ids [Event.notify Notify.dirty, Event.notify (Notify.frame CoglFrameEvent.SYNC)]
        idle_world).data.draw_ready ≠ 0 :=
  (pending_only_if_dirty_and_ready glib_ids idle_world rfl rfl rfl
    [Event.notify Notify.dirty, Event.notify (Notify.frame CoglFrameEvent.SYNC)]).2 (by decide)

/-- C4: start not dirty, not ready, with nothing pending and no idle source attached, and
deliver any burst of notifications that holds at least one damage and at least one sync
notification, with no dispatch in between.  After every prefix of the burst the number of
sources attached so far is 1 if the prefix holds both kinds and 0 otherwise, so the one
source is attached at the first notification that completes the pair and never again.
After the burst one source is attached, and however often the main loop then dispatches,
`paint_cb` runs exactly once. -/
theorem burst_schedules_once (sched : Nat → Nat) (hs : ∀ n, sched n ≠ 0) (w0 : World)
    (hidle : w0.data.redraw_idle = 0) (hdirty : w0.data.is_dirty = FALSE)
    (hready : w0.data.draw_ready = FALSE) (hsrc : w0.sources = []) (ns : List Notify)
    (hd : Notify.dirty ∈ ns) (hr : Notify.frame CoglFrameEvent.SYNC ∈ ns) :
    (∀ pre, pre <+: ns →
        (run sched (pre.map Event.notify) w0).issued =
          w0.issued +
            (if Notify.dirty ∈ pre ∧ Notify.frame CoglFrameEvent.SYNC ∈ pre then 1 else 0)) ∧
      (run sched (ns.map Event.notify) w0).issued = w0.issued + 1 ∧
      (run sched (ns.map Event.notify) w0).sources = [sched w0.issued] ∧
      (∀ j, 1 ≤ j →
        paints (run sched (ns.map Event.notify ++ List.replicate j (Event.fire 0 quiet)) w0) =
          paints w0 + 1) := by
  have hfull := burst_state_deliver_all sched hs w0 hidle hdirty hready ns
  obtain ⟨hlog, _, _, hboth, _⟩ := hfull
  obtain ⟨_, hiss, hsources⟩ := hboth ⟨hd, hr⟩
  rw [hsrc, List.nil_append] at hsources
  refine ⟨?_, ?_, ?_, ?_⟩
  · intro pre _
    rw [run_notify]
    obtain ⟨_, _, _, hb, hn⟩ := burst_state_deliver_all sched hs w0 hidle hdirty hready pre
    by_cases hc : Notify.dirty ∈ pre ∧ Notify.frame CoglFrameEvent.SYNC ∈ pre
    · rw [if_pos hc]; exact (hb hc).2.1
    · rw [if_neg hc]; exact (hn hc).2.1
  · rw [run_notify]; exact hiss
  · rw [run_notify]; exact hsources
  · intro j hj
    obtain ⟨i, rfl⟩ : ∃ i, j = i + 1 := ⟨j - 1, by omega⟩
    rw [run_append, run_notify]
    show paints (run sched (List.replicate i (Event.fire 0 quiet))
      (dispatch_idle sched quiet 0 (deliver_all sched ns w0))) = paints w0 + 1
    rw [dispatch_idle_quiet_single sched _ _ hsources, run_fire_none sched i _ rfl]
    unfold paints
    show List.count RenderOp.swap_buffers ((deliver_all sched ns w0).log ++ _) = _
    rw [hlog]
    simp

/-- Witness for C4: a first cycle (damage, sync, dispatch) has run from the idle state;
from the state it leaves, damage followed by a sync attaches one fresh source. -/
theorem burst_schedules_once_witness :
    (run glib_ids ([Notify.dirty, Notify.frame CoglFrameEvent.SYNC].map Event.notify)
        after_first_cycle).issued = after_first_cycle.issued + 1 ∧
      (run glib_ids ([Notify.dirty, Notify.frame CoglFrameEvent.SYNC].map Event.notify)
        after_first_cycle).sources = [glib_ids after_first_cycle.issued] ∧
      (∀ j, 1 ≤ j →
        paints (run glib_ids
          ([Notify.dirty, Notify.frame CoglFrameEvent.SYNC].map Event.notify ++
            List.replicate j (Event.fire 0 quiet)) after_first_cycle) =
          paints after_first_cycle + 1) :=
  (burst_schedules_once glib_ids glib_ids_ne_zero after_first_cycle (by decide) (by decide)
    (by decide) (by decide) [Notify.dirty, Notify.frame CoglFrameEvent.SYNC]
    (by decide) (by decide)).2

/-- C5 (code at the failing input): `main` assigns `redraw_idle` only.  When the stack word
under `draw_ready` is not zero, the program enters the main loop with `draw_ready` set,
and a single damage notification, with no sync at all, attaches an idle source. -/
theorem dirty_alone_schedules_after_main :
    (main working_libs stale_stack demo_argv).2 =
        Exit.main_loop
          { data := { redraw_idle := 0, is_dirty := 0, draw_ready := 1, width := 640, height := 480 },
            sources := [], issued := 0, log := [] } ∧
      (run glib_ids [Event.notify Notify.dirty]
          { data := { redraw_idle := 0, is_dirty := 0, draw_ready := 1, width := 640, height := 480 },
            sources := [], issued := 0, log := [] }).issued = 1 ∧
      (run glib_ids [Event.notify Notify.dirty]
          { data := { redraw_idle := 0, is_dirty := 0, draw_ready := 1, width := 640, height := 480 },
            sources := [], issued := 0, log := [] }).sources = [1] := by
  refine ⟨by decide, by decide, by decide⟩

/-- C8 (code at the failing input): when the file cannot be opened `load_file` returns
`NULL`, and `main` goes on to hand the `NULL` pixbuf to all five getters, creates a
context and creates a texture of size -1 x -1; it prints no message for the failed load. -/
theorem main_ignores_load_failure :
    load_file missing_file_libs "photo.png" = none ∧
      (main missing_file_libs stale_stack demo_argv).1 =
        [ Call.load_file "photo.png",
          Call.pixbuf_get Getter.width none,
          Call.pixbuf_get Getter.height none,
          Call.pixbuf_get Getter.has_alpha none,
          Call.pixbuf_get Getter.rowstride none,
          Call.pixbuf_get Getter.pixels none,
          Call.printf_picture (-1) (-1) 0 (-1) 0,
          Call.cogl_context_new,
          Call.meta_create_texture (-1) (-1) CoglTextureComponents.RGB META_TEXTURE_ALLOW_SLICING,
          Call.cogl_texture_set_data
            { kind := TextureKind.sliced_2d 127, width := -1, height := -1,
              components := some CoglTextureComponents.RGB } (-1) 0,
          Call.g_error "Failed to create texture for background" ] ∧
      (main missing_file_libs stale_stack demo_argv).2 = Exit.aborted := by
  refine ⟨rfl, by decide, by decide⟩

end ImageResize
